import Mathlib

set_option maxRecDepth 4000

/-!
Shallow embedding of the CHIP-8 interpreter in `src/main.rs`.

Machine integers are modelled as `Nat` with explicit `% 256` (u8) and the
bit operations `&&&`, `|||`, `^^^`, `<<<`, `>>>` where the source uses the
corresponding Rust operators.  The fixed-size arrays `memory : [u8; 4096]`,
`v : [u8; 16]`, `gfx : [u8; 2048]` and `key : [u8; 16]` are modelled as total
functions `Nat → Nat` updated with `upd`; the `Vec<u16>` call stack is a
`List Nat` whose head is the most recently pushed element (Rust's
`Vec::push`/`Vec::pop` operate on the back of the vector, which the list
head models).  A Rust `panic!` is modelled as `Except.error` carrying the
machine state at the moment of the abort, so that theorems can speak about
what has (not) been mutated when a fatal error is raised.

The two external effects reached from `emulate_cycle` — `rand::random()` in
opcode Cxnn and `key_pressed()` in opcodes Ex9E/ExA1 (the latter is
`todo!()` in the source) — are passed in as explicit `rnd` / `keyp`
arguments of the cycle.
-/

namespace Chip8Emu

/-- Pointwise update of a function-modelled array: `f[i] = v`. -/
def upd (f : Nat → Nat) (i v : Nat) : Nat → Nat :=
  fun j => if j = i then v else f j

/-- `enum ProgramCounterInstruction { NEXT, SKIP, GOTO(u16) }` from the source. -/
inductive ProgramCounterInstruction where
  | NEXT : ProgramCounterInstruction
  | SKIP : ProgramCounterInstruction
  | GOTO : Nat → ProgramCounterInstruction
deriving DecidableEq

/-- The fatal conditions of the interpreter: the source reaches these through
`panic!` ("Unknown opcode read", "trying to pop the stack but it is empty"). -/
inductive EmuError where
  | unknownOpcode : Nat → EmuError
  | stackUnderflow : EmuError
deriving DecidableEq

/-- `struct Chip8` from the source, field for field. -/
structure Chip8 where
  opcode : Nat
  memory : Nat → Nat
  v : Nat → Nat
  i : Nat
  pc : Nat
  gfx : Nat → Nat
  delay_timer : Nat
  sound_timer : Nat
  stack : List Nat
  key : Nat → Nat
  draw_flag : Bool

/-- `impl Default for Chip8`: pc = 0x200, everything else zeroed / empty. -/
def Chip8.default : Chip8 where
  opcode := 0
  memory := fun _ => 0
  v := fun _ => 0
  i := 0
  pc := 0x200
  gfx := fun _ => 0
  delay_timer := 0
  sound_timer := 0
  stack := []
  key := fun _ => 0
  draw_flag := false

/-- Operand field `x` = bits 8–11 of the instruction word (`(opcode & 0x0F00) >> 8`). -/
def decode_x (w : Nat) : Nat := (w &&& 0x0F00) >>> 8

/-- Operand field `y` = bits 4–7 (`(opcode & 0x00F0) >> 4`). -/
def decode_y (w : Nat) : Nat := (w &&& 0x00F0) >>> 4

/-- Operand field `n` = bits 0–3 (`opcode & 0x000F`). -/
def decode_n (w : Nat) : Nat := w &&& 0x000F

/-- Operand field `nn` = bits 0–7 (`opcode & 0x00FF`). -/
def decode_nn (w : Nat) : Nat := w &&& 0x00FF

/-- Operand field `nnn` = bits 0–11 (`opcode & 0x0FFF`). -/
def decode_nnn (w : Nat) : Nat := w &&& 0x0FFF

/-- The instruction fetch of `emulate_cycle` exactly as the source writes it:
`u16::from(self.memory[pc] << 8) | u16::from(self.memory[pc + 1])`.
The shift `memory[pc] << 8` is performed at `u8` width *before* the widening
cast.  rustc rejects this constant out-of-range shift outright
("this arithmetic operation will overflow"); under Rust's release overflow
semantics the shift amount of an overflowing shift is taken modulo the bit
width, leaving the byte unshifted, which is what the `<<< (8 % 8)` below
encodes (a debug build would abort at this point instead). -/
def fetchOpcode (s : Chip8) : Nat :=
  ((s.memory s.pc <<< (8 % 8)) % 256) ||| s.memory (s.pc + 1)

/-- The big-endian fetch the specification describes:
`opcode = (memory[PC] << 8) | memory[PC+1]` with the shift performed after
widening to 16 bits.  Stated from the spec's words, for comparison with
`fetchOpcode` above. -/
def fetchOpcodeSpec (s : Chip8) : Nat :=
  (s.memory s.pc <<< 8) ||| s.memory (s.pc + 1)

/-- Modelled from the spec: `Chip8::clear_screen` is `todo!()` in the source.
Spec §4.3, opcode 00E0: "Clear framebuffer to all-zero; raise redraw flag". -/
def clear_screen (s : Chip8) : Chip8 :=
  { s with gfx := fun _ => 0, draw_flag := true }

/-- Modelled from the spec: one pixel of a sprite row, part of the sprite-draw
algorithm whose body `Chip8::draw` is `todo!()` in the source.  Spec §4.3:
bit `c` (most significant first) of the row byte is XOR-ed into the
framebuffer at column `(vx + c) mod 64`, row `py mod 32`; if the destination
pixel was set it is unset and VF is set to 1 (collision). -/
def drawPixel (vx py byte : Nat) (acc : Chip8) (c : Nat) : Chip8 :=
  if (byte >>> (7 - c)) &&& 1 = 1 then
    let idx := (py % 32) * 64 + (vx + c) % 64
    let acc1 := if acc.gfx idx = 1 then { acc with v := upd acc.v 15 1 } else acc
    { acc1 with gfx := upd acc1.gfx idx (acc1.gfx idx ^^^ 1) }
  else acc

/-- Modelled from the spec: one 8-pixel sprite row (spec §4.3: "each byte
representing one row of 8 horizontally bit-packed pixels"). -/
def drawRow (vx py byte : Nat) (acc : Chip8) : Chip8 :=
  (List.range 8).foldl (drawPixel vx py byte) acc

/-- Modelled from the spec: row `r` of the sprite is the byte at memory
address `I + r` (spec §4.3: "reads n consecutive bytes starting at memory
address I"); `I` itself is never modified. -/
def drawRowsStep (vx vy : Nat) (acc : Chip8) (r : Nat) : Chip8 :=
  drawRow vx (vy + r) (acc.memory (acc.i + r)) acc

/-- Modelled from the spec: `Chip8::draw` is `todo!()` in the source.  Spec
§4.3 sprite draw: blit the 8×n bitmap at memory[I..I+n] onto the framebuffer
at origin (vx, vy) with per-pixel XOR, coordinates wrapping mod 64×32;
VF ← 1 iff some set pixel is unset, else 0; the redraw flag is raised
unconditionally. -/
def draw (vx vy n : Nat) (s : Chip8) : Chip8 :=
  (List.range n).foldl (drawRowsStep vx vy)
    { s with v := upd s.v 15 0, draw_flag := true }

/-- 00E0: clears the screen (the source calls `clear_screen`, returns NEXT). -/
def op_0x00e0 (s : Chip8) : Chip8 × ProgramCounterInstruction :=
  (clear_screen s, .NEXT)

/-- 00EE: returns from subroutine.  `self.stack.pop()` yielding `Some`
jumps to the popped address; `None` aborts with "Error: trying to pop the
stack but it is empty", modelled as the `stackUnderflow` error carrying the
untouched state. -/
def op_0x00ee (s : Chip8) :
    Except (EmuError × Chip8) (Chip8 × ProgramCounterInstruction) :=
  match s.stack with
  | [] => .error (.stackUnderflow, s)
  | previous_pc :: rest => .ok ({ s with stack := rest }, .GOTO previous_pc)

/-- 1NNN: jumps to address NNN. -/
def op_0x1nnn (nnn : Nat) (s : Chip8) : Chip8 × ProgramCounterInstruction :=
  (s, .GOTO nnn)

/-- 2NNN: calls subroutine at NNN: `self.stack.push(self.pc)` then GOTO(nnn).
The pushed value is the still-unadvanced PC of the 2NNN instruction itself. -/
def op_0x2nnn (nnn : Nat) (s : Chip8) : Chip8 × ProgramCounterInstruction :=
  ({ s with stack := s.pc :: s.stack }, .GOTO nnn)

/-- 3XNN: skips the next instruction if VX equals NN. -/
def op_0x3xnn (x nn : Nat) (s : Chip8) : Chip8 × ProgramCounterInstruction :=
  (s, if s.v x = nn then .SKIP else .NEXT)

/-- 4XNN: skips the next instruction if VX does not equal NN. -/
def op_0x4xnn (x nn : Nat) (s : Chip8) : Chip8 × ProgramCounterInstruction :=
  (s, if s.v x ≠ nn then .SKIP else .NEXT)

/-- 5XY0: skips the next instruction if VX equals VY. -/
def op_0x5xy0 (x y : Nat) (s : Chip8) : Chip8 × ProgramCounterInstruction :=
  (s, if s.v x = s.v y then .SKIP else .NEXT)

/-- 6XNN: sets VX to NN. -/
def op_0x6xnn (x nn : Nat) (s : Chip8) : Chip8 × ProgramCounterInstruction :=
  ({ s with v := upd s.v x nn }, .NEXT)

/-- 7XNN: adds NN to VX.  The source widens both operands to u16, adds, and
casts the sum back to u8 (`(augend + addend) as u8`), i.e. mod 256.  VF is
not written (unless x = 0xF, in which case VX *is* VF). -/
def op_0x7xnn (x nn : Nat) (s : Chip8) : Chip8 × ProgramCounterInstruction :=
  ({ s with v := upd s.v x ((nn + s.v x) % 256) }, .NEXT)

/-- 8XY0: sets VX to the value of VY. -/
def op_0x8xy0 (x y : Nat) (s : Chip8) : Chip8 × ProgramCounterInstruction :=
  ({ s with v := upd s.v x (s.v y) }, .NEXT)

/-- 8XY1: VX ← VX OR VY. -/
def op_0x8xy1 (x y : Nat) (s : Chip8) : Chip8 × ProgramCounterInstruction :=
  ({ s with v := upd s.v x (s.v x ||| s.v y) }, .NEXT)

/-- 8XY2: VX ← VX AND VY. -/
def op_0x8xy2 (x y : Nat) (s : Chip8) : Chip8 × ProgramCounterInstruction :=
  ({ s with v := upd s.v x (s.v x &&& s.v y) }, .NEXT)

/-- 8XY3: VX ← VX XOR VY. -/
def op_0x8xy3 (x y : Nat) (s : Chip8) : Chip8 × ProgramCounterInstruction :=
  ({ s with v := upd s.v x (s.v x ^^^ s.v y) }, .NEXT)

/-- 8XY4: adds VY to VX; the 9-bit sum is computed first, VX takes its low
8 bits, then VF takes the carry — the VF write is last. -/
def op_0x8xy4 (x y : Nat) (s : Chip8) : Chip8 × ProgramCounterInstruction :=
  let result := s.v x + s.v y
  let s1 := { s with v := upd s.v x (result % 256) }
  ({ s1 with v := upd s1.v 15 (if 0xFF < result then 1 else 0) }, .NEXT)

/-- 8XY5: `result = v[x].wrapping_sub(v[y])` is computed first, then
`v[0xF]` takes the no-borrow flag (`v[x] > v[y]`), then `v[x] = result` —
the VX write is last.  `wrapping_sub` on bytes is `(a + 256 - b) % 256`. -/
def op_0x8xy5 (x y : Nat) (s : Chip8) : Chip8 × ProgramCounterInstruction :=
  let result := (s.v x + 256 - s.v y) % 256
  let s1 := { s with v := upd s.v 15 (if s.v y < s.v x then 1 else 0) }
  ({ s1 with v := upd s1.v x result }, .NEXT)

/-- 8XY6: VF ← VX AND 1, then VX ← VX >> 1 (the shift reads VX *after* the
flag write, which matters when x = 0xF). -/
def op_0x8xy6 (x : Nat) (s : Chip8) : Chip8 × ProgramCounterInstruction :=
  let s1 := { s with v := upd s.v 15 (s.v x &&& 0x1) }
  ({ s1 with v := upd s1.v x (s1.v x >>> 1) }, .NEXT)

/-- 8XY7: `v[0xF]` takes the no-borrow flag (`v[y] > v[x]`) *first*, then
`result = v[y].wrapping_sub(v[x])` is computed — reading VX after the flag
write — and finally `v[x] = result`. -/
def op_0x8xy7 (x y : Nat) (s : Chip8) : Chip8 × ProgramCounterInstruction :=
  let s1 := { s with v := upd s.v 15 (if s.v x < s.v y then 1 else 0) }
  let result := (s1.v y + 256 - s1.v x) % 256
  ({ s1 with v := upd s1.v x result }, .NEXT)

/-- 8XYE: VF ← (VX AND 0x80) >> 7, then VX ← VX << 1 (u8: high bit dropped). -/
def op_0x8xye (x : Nat) (s : Chip8) : Chip8 × ProgramCounterInstruction :=
  let s1 := { s with v := upd s.v 15 ((s.v x &&& 0x80) >>> 7) }
  ({ s1 with v := upd s1.v x ((s1.v x <<< 1) % 256) }, .NEXT)

/-- 9XY0: skips the next instruction if VX does not equal VY. -/
def op_0x9xy0 (x y : Nat) (s : Chip8) : Chip8 × ProgramCounterInstruction :=
  (s, if s.v x ≠ s.v y then .SKIP else .NEXT)

/-- ANNN: sets I to the address NNN. -/
def op_0xannn (nnn : Nat) (s : Chip8) : Chip8 × ProgramCounterInstruction :=
  ({ s with i := nnn }, .NEXT)

/-- BNNN: jumps to NNN plus V0 (`u16::from(self.v[0]) + nnn`, no masking). -/
def op_0xbnnn (nnn : Nat) (s : Chip8) : Chip8 × ProgramCounterInstruction :=
  (s, .GOTO (s.v 0 + nnn))

/-- CXNN: VX ← random byte AND NN; the random byte is the external input
`rnd` (`rand::random()` in the source). -/
def op_0xcxnn (rnd x nn : Nat) (s : Chip8) : Chip8 × ProgramCounterInstruction :=
  ({ s with v := upd s.v x (rnd &&& nn) }, .NEXT)

/-- DXYN: draws via `self.draw(self.v[x], self.v[y], n)` and returns NEXT.
Note that the *caller* in `emulate_cycle` supplies `nn` (the full low byte)
for the `n` argument. -/
def op_0xdxyn (x y n : Nat) (s : Chip8) : Chip8 × ProgramCounterInstruction :=
  (draw (s.v x) (s.v y) n s, .NEXT)

/-- EX9E: skips if `key_pressed() == v[x]`; `key_pressed` is `todo!()` in the
source and is modelled as the external input `keyp` (spec §3: the keypad
state is externally supplied). -/
def op_0xex9e (keyp x : Nat) (s : Chip8) : Chip8 × ProgramCounterInstruction :=
  (s, if keyp = s.v x then .SKIP else .NEXT)

/-- EXA1: skips if `key_pressed() != v[x]`. -/
def op_0xexa1 (keyp x : Nat) (s : Chip8) : Chip8 × ProgramCounterInstruction :=
  (s, if keyp ≠ s.v x then .SKIP else .NEXT)

/-- The opcode dispatch of `emulate_cycle`: the `match self.opcode & 0xF000`
with its nested sub-matches, every `panic!` arm modelled as an
`unknownOpcode` error carrying the current state.  The DXYN arm passes `nn`
as the height argument, exactly as the source does. -/
def runOpcode (rnd keyp w : Nat) (s : Chip8) :
    Except (EmuError × Chip8) (Chip8 × ProgramCounterInstruction) :=
  let nnn := decode_nnn w
  let nn := decode_nn w
  let n := decode_n w
  let x := decode_x w
  let y := decode_y w
  match w &&& 0xF000 with
  | 0x0000 =>
    match w &&& 0x000F with
    | 0x0000 => .ok (op_0x00e0 s)
    | 0x000E => op_0x00ee s
    | _ => .error (.unknownOpcode w, s)
  | 0x1000 => .ok (op_0x1nnn nnn s)
  | 0x2000 => .ok (op_0x2nnn nnn s)
  | 0x3000 => .ok (op_0x3xnn x nn s)
  | 0x4000 => .ok (op_0x4xnn x nn s)
  | 0x5000 => .ok (op_0x5xy0 x y s)
  | 0x6000 => .ok (op_0x6xnn x nn s)
  | 0x7000 => .ok (op_0x7xnn x nn s)
  | 0x8000 =>
    match n with
    | 0x0 => .ok (op_0x8xy0 x y s)
    | 0x1 => .ok (op_0x8xy1 x y s)
    | 0x2 => .ok (op_0x8xy2 x y s)
    | 0x3 => .ok (op_0x8xy3 x y s)
    | 0x4 => .ok (op_0x8xy4 x y s)
    | 0x5 => .ok (op_0x8xy5 x y s)
    | 0x6 => .ok (op_0x8xy6 x s)
    | 0x7 => .ok (op_0x8xy7 x y s)
    | 0xE => .ok (op_0x8xye x s)
    | _ => .error (.unknownOpcode w, s)
  | 0x9000 => .ok (op_0x9xy0 x y s)
  | 0xA000 => .ok (op_0xannn nnn s)
  | 0xB000 => .ok (op_0xbnnn nnn s)
  | 0xC000 => .ok (op_0xcxnn rnd x nn s)
  | 0xD000 => .ok (op_0xdxyn x y nn s)
  | 0xE000 =>
    match n with
    | 0xE => .ok (op_0xex9e keyp x s)
    | 0x1 => .ok (op_0xexa1 keyp x s)
    | _ => .error (.unknownOpcode w, s)
  | _ => .error (.unknownOpcode w, s)

/-- The uniform PC transition of `emulate_cycle`: NEXT adds 2, SKIP adds 4,
GOTO assigns. -/
def applyPC : ProgramCounterInstruction → Chip8 → Chip8
  | .NEXT, s => { s with pc := s.pc + 2 }
  | .SKIP, s => { s with pc := s.pc + 4 }
  | .GOTO addr, s => { s with pc := addr }

/-- `if self.delay_timer > 0 { self.delay_timer -= 1 }`. -/
def tickDelay (s : Chip8) : Chip8 :=
  if 0 < s.delay_timer then { s with delay_timer := s.delay_timer - 1 } else s

/-- `if self.sound_timer > 0 { ...; self.sound_timer -= 1 }` (the BEEP print
at value 1 has no effect on the machine state). -/
def tickSound (s : Chip8) : Chip8 :=
  if 0 < s.sound_timer then { s with sound_timer := s.sound_timer - 1 } else s

/-- The timer block at the end of `emulate_cycle`: delay then sound. -/
def tickTimers (s : Chip8) : Chip8 :=
  tickSound (tickDelay s)

/-- One `emulate_cycle` body from the point where `self.opcode` has been
assigned the word `w`: store the opcode, dispatch, apply the PC transition,
tick the timers.  Fatal arms surface as errors carrying the state at the
moment of the abort. -/
def stepWithOpcode (rnd keyp w : Nat) (s0 : Chip8) :
    Except (EmuError × Chip8) Chip8 :=
  match runOpcode rnd keyp w { s0 with opcode := w } with
  | .error e => .error e
  | .ok (s1, a) => .ok (tickTimers (applyPC a s1))

/-- `Chip8::emulate_cycle`: fetch (as the source writes it), then execute. -/
def emulate_cycle (rnd keyp : Nat) (s : Chip8) :
    Except (EmuError × Chip8) Chip8 :=
  stepWithOpcode rnd keyp (fetchOpcode s) s

/-- `m` consecutive cycles of the emulation loop, stopping at the first
fatal error. -/
def runCycles (rnd keyp : Nat) : Nat → Chip8 → Except (EmuError × Chip8) Chip8
  | 0, s => .ok s
  | m + 1, s =>
    match emulate_cycle rnd keyp s with
    | .ok s1 => runCycles rnd keyp m s1
    | .error e => .error e

/-- Machine with the instruction bytes 0x12 0x34 at the reset PC 0x200. -/
def c1s : Chip8 :=
  { Chip8.default with memory := upd (upd Chip8.default.memory 0x200 0x12) 0x201 0x34 }

/-- The state after executing opcode 0x2300 from the reset state: pc = nnn,
the call-site address 0x200 pushed. -/
def c2s1 : Chip8 := { Chip8.default with opcode := 0x2300, pc := 0x300, stack := [0x200] }

/-- The state after then executing 00EE: pc back to the call site 0x200
itself, stack empty again. -/
def c2s2 : Chip8 := { Chip8.default with opcode := 0x00EE, pc := 0x200, stack := [] }

/-- Machine with V0 = 0x01 (so that V15 = 0x00 and V0 = 0x01). -/
def c3s : Chip8 := { Chip8.default with v := upd Chip8.default.v 0 1 }

/-- Machine with V1 = 0x00, V2 = 0x01 (the spec's borrow example). -/
def c3w : Chip8 := { Chip8.default with v := upd Chip8.default.v 2 1 }

/-- Machine with V1 = 0xFF, V2 = 0x01 (the spec's wraparound example). -/
def c4w : Chip8 :=
  { Chip8.default with v := upd (upd Chip8.default.v 1 0xFF) 2 0x01 }

/-- Machine whose call stack already holds 16 return addresses. -/
def c5s : Chip8 := { Chip8.default with stack := List.replicate 16 0x200 }

/-- Machine with I = 0x300 and a sprite byte 0x80 at memory[0x302], i.e. in
the third sprite row — beyond the 2-row sprite the opcode 0xD012 names. -/
def c6s : Chip8 :=
  { Chip8.default with i := 0x300, memory := upd Chip8.default.memory 0x302 0x80 }

/-- Machine with V0 = 0xFF. -/
def c7s : Chip8 := { Chip8.default with v := upd Chip8.default.v 0 0xFF }

/-- The state after executing opcode 0xBFFF on `c7s`: pc = 0xFF + 0xFFF. -/
def c7t : Chip8 := { c7s with opcode := 0xBFFF, pc := 0x10FE }

/-- Machine with delay timer 5 and sound timer 3. -/
def c9s : Chip8 := { Chip8.default with delay_timer := 5, sound_timer := 3 }

/-- `c9s` after two cycles (each fetches word 0 at zeroed memory, i.e. the
00E0 arm): pc advanced by 4, screen cleared, both timers down by 2. -/
def c9t : Chip8 :=
  { Chip8.default with pc := 0x204, gfx := fun _ => 0, draw_flag := true,
                       delay_timer := 3, sound_timer := 1 }

/-- Machine with V15 = 5 and V1 = 7. -/
def c10s : Chip8 := { Chip8.default with v := upd (upd Chip8.default.v 15 5) 1 7 }

/-! ## Helper lemmas -/

/-- A projection `g` that every fold step preserves is preserved by the
whole fold. -/
theorem foldl_proj {β : Type} (g : Chip8 → β) (f : Chip8 → Nat → Chip8)
    (hf : ∀ a c, g (f a c) = g a) (l : List Nat) :
    ∀ a, g (List.foldl f a l) = g a := by
  induction l with
  | nil => intro a; rfl
  | cons c cs ih => intro a; rw [List.foldl_cons, ih, hf]

theorem drawPixel_delay (vx py b : Nat) (a : Chip8) (c : Nat) :
    (drawPixel vx py b a c).delay_timer = a.delay_timer := by
  unfold drawPixel
  split
  · dsimp only
    split <;> rfl
  · rfl

theorem drawPixel_sound (vx py b : Nat) (a : Chip8) (c : Nat) :
    (drawPixel vx py b a c).sound_timer = a.sound_timer := by
  unfold drawPixel
  split
  · dsimp only
    split <;> rfl
  · rfl

theorem drawRow_delay (vx py b : Nat) (a : Chip8) :
    (drawRow vx py b a).delay_timer = a.delay_timer :=
  foldl_proj (fun t => t.delay_timer) (drawPixel vx py b)
    (fun a c => drawPixel_delay vx py b a c) (List.range 8) a

theorem drawRow_sound (vx py b : Nat) (a : Chip8) :
    (drawRow vx py b a).sound_timer = a.sound_timer :=
  foldl_proj (fun t => t.sound_timer) (drawPixel vx py b)
    (fun a c => drawPixel_sound vx py b a c) (List.range 8) a

theorem draw_delay (vx vy n : Nat) (s : Chip8) :
    (draw vx vy n s).delay_timer = s.delay_timer := by
  unfold draw
  rw [foldl_proj (fun t => t.delay_timer) (drawRowsStep vx vy)
    (fun a r => drawRow_delay vx (vy + r) (a.memory (a.i + r)) a)]

theorem draw_sound (vx vy n : Nat) (s : Chip8) :
    (draw vx vy n s).sound_timer = s.sound_timer := by
  unfold draw
  rw [foldl_proj (fun t => t.sound_timer) (drawRowsStep vx vy)
    (fun a r => drawRow_sound vx (vy + r) (a.memory (a.i + r)) a)]

/-- The timer-preservation predicate over a dispatch result: a successful
arm leaves both timers as they were in `s`. -/
def timersOk (s : Chip8) :
    Except (EmuError × Chip8) (Chip8 × ProgramCounterInstruction) → Prop
  | .ok (t, _) => t.delay_timer = s.delay_timer ∧ t.sound_timer = s.sound_timer
  | .error _ => True

theorem op_0x00ee_timersOk (s : Chip8) : timersOk s (op_0x00ee s) := by
  unfold op_0x00ee
  split <;> simp [timersOk]

/-- Every non-fatal dispatch arm leaves both timers untouched: the tick at
the end of `emulate_cycle` is the only place they change. -/
theorem runOpcode_timersOk (rnd keyp w : Nat) (s : Chip8) :
    timersOk s (runOpcode rnd keyp w s) := by
  unfold runOpcode
  dsimp only
  repeat' split
  all_goals first
  | exact op_0x00ee_timersOk s
  | simp [timersOk, op_0x00e0, op_0x1nnn, op_0x2nnn, op_0x3xnn,
      op_0x4xnn, op_0x5xy0, op_0x6xnn, op_0x7xnn, op_0x8xy0, op_0x8xy1,
      op_0x8xy2, op_0x8xy3, op_0x8xy4, op_0x8xy5, op_0x8xy6, op_0x8xy7,
      op_0x8xye, op_0x9xy0, op_0xannn, op_0xbnnn, op_0xcxnn, op_0xdxyn,
      op_0xex9e, op_0xexa1, clear_screen, draw_delay, draw_sound]

theorem runOpcode_timers (rnd keyp w : Nat) (s t : Chip8)
    (a : ProgramCounterInstruction)
    (h : runOpcode rnd keyp w s = .ok (t, a)) :
    t.delay_timer = s.delay_timer ∧ t.sound_timer = s.sound_timer := by
  have hh := runOpcode_timersOk rnd keyp w s
  rw [h] at hh
  exact hh

theorem tickDelay_delay (s : Chip8) :
    (tickDelay s).delay_timer = s.delay_timer - 1 := by
  unfold tickDelay
  split
  · rfl
  · omega

theorem tickDelay_sound (s : Chip8) :
    (tickDelay s).sound_timer = s.sound_timer := by
  unfold tickDelay
  split <;> rfl

theorem tickSound_delay (s : Chip8) :
    (tickSound s).delay_timer = s.delay_timer := by
  unfold tickSound
  split <;> rfl

theorem tickSound_sound (s : Chip8) :
    (tickSound s).sound_timer = s.sound_timer - 1 := by
  unfold tickSound
  split
  · rfl
  · omega

theorem tickTimers_delay (s : Chip8) :
    (tickTimers s).delay_timer = s.delay_timer - 1 := by
  unfold tickTimers
  rw [tickSound_delay, tickDelay_delay]

theorem tickTimers_sound (s : Chip8) :
    (tickTimers s).sound_timer = s.sound_timer - 1 := by
  unfold tickTimers
  rw [tickSound_sound, tickDelay_sound]

theorem applyPC_delay (a : ProgramCounterInstruction) (s : Chip8) :
    (applyPC a s).delay_timer = s.delay_timer := by
  cases a <;> rfl

theorem applyPC_sound (a : ProgramCounterInstruction) (s : Chip8) :
    (applyPC a s).sound_timer = s.sound_timer := by
  cases a <;> rfl

/-- Any successfully executed instruction ends with both timers one lower
(floored at 0 by `Nat` subtraction). -/
theorem stepWithOpcode_timers (rnd keyp w : Nat) (s t : Chip8)
    (h : stepWithOpcode rnd keyp w s = .ok t) :
    t.delay_timer = s.delay_timer - 1 ∧ t.sound_timer = s.sound_timer - 1 := by
  unfold stepWithOpcode at h
  split at h
  · exact absurd h (by simp)
  · rename_i s1 a heq
    injection h with h1
    subst h1
    have hr := runOpcode_timers rnd keyp w { s with opcode := w } s1 a heq
    rw [tickTimers_delay, tickTimers_sound, applyPC_delay, applyPC_sound,
      hr.1, hr.2]
    exact ⟨rfl, rfl⟩

theorem emulate_cycle_timers (rnd keyp : Nat) (s t : Chip8)
    (h : emulate_cycle rnd keyp s = .ok t) :
    t.delay_timer = s.delay_timer - 1 ∧ t.sound_timer = s.sound_timer - 1 :=
  stepWithOpcode_timers rnd keyp (fetchOpcode s) s t h

/-! ## Claim theorems -/

/-- C1: on a machine whose memory holds 0x12 at PC and 0x34 at PC+1 the
fetch of `emulate_cycle` produces 0x0036, not the big-endian combination
0x1234 that the specification describes — the source shifts the high byte
at u8 width before widening, so the high byte never reaches bits 8–15. -/
theorem C1_fetch_not_big_endian :
    fetchOpcode c1s = 0x36
    ∧ fetchOpcodeSpec c1s = 0x1234
    ∧ c1s.memory c1s.pc * 256 + c1s.memory (c1s.pc + 1) = 0x1234
    ∧ fetchOpcode c1s ≠ fetchOpcodeSpec c1s := by
  decide

/-- C2: executing opcode 2nnn (nnn = 0x300) as a full cycle from the reset
state and then 00EE as a full cycle lands the program counter back on the
call site 0x200 itself — not on 0x202, the address immediately after the
call — because 2nnn pushes the still-unadvanced PC and 00EE jumps straight
to the popped value.  The stack does return to its pre-call depth. -/
theorem C2_call_return_lands_on_call_site :
    stepWithOpcode 0 0 0x2300 Chip8.default = .ok c2s1
    ∧ c2s1.pc = 0x300 ∧ c2s1.stack = [0x200]
    ∧ stepWithOpcode 0 0 0x00EE c2s1 = .ok c2s2
    ∧ c2s2.pc = Chip8.default.pc
    ∧ c2s2.pc ≠ Chip8.default.pc + 2
    ∧ c2s2.stack.length = Chip8.default.stack.length := by
  refine ⟨rfl, rfl, rfl, rfl, rfl, by decide, rfl⟩

/-- C3 counterexample: for x = 0xF the claim fails.  With V15 = 0x00 and
V0 = 0x01, opcode 8F05 leaves VF = 0xFF (the wrapped difference written
over the flag), not the borrow flag 0 the claim requires. -/
theorem C3_cex_vf_overwritten :
    (op_0x8xy5 15 0 c3s).1.v 15 = 0xFF
    ∧ (if c3s.v 0 < c3s.v 15 then 1 else 0) = 0
    ∧ (op_0x8xy5 15 0 c3s).1.v 15 ≠ 0 := by
  decide

/-- C3 (amended): for every destination register x ≠ 0xF, opcode 8xy5 sets
Vx to the 8-bit wrapping difference Vx − Vy and VF to 1 exactly when the
pre-instruction Vx is strictly greater than Vy, else 0, with PC transition
Next.  (When x = 0xF the later result write overwrites the flag.) -/
theorem C3_sub_borrow_semantics (s : Chip8) (x y : Nat) (hx : x ≠ 15) :
    (op_0x8xy5 x y s).1.v x = (s.v x + 256 - s.v y) % 256
    ∧ (op_0x8xy5 x y s).1.v 15 = (if s.v y < s.v x then 1 else 0)
    ∧ (op_0x8xy5 x y s).2 = ProgramCounterInstruction.NEXT := by
  have h15 : (15 : Nat) ≠ x := fun hc => hx hc.symm
  refine ⟨by simp [op_0x8xy5, upd], by simp [op_0x8xy5, upd, h15], rfl⟩

/-- C3 witness: the spec's borrow example V1 = 0x00, V2 = 0x01 under
opcode 8125. -/
theorem C3_sub_borrow_semantics_witness :
    (op_0x8xy5 1 2 c3w).1.v 1 = (c3w.v 1 + 256 - c3w.v 2) % 256
    ∧ (op_0x8xy5 1 2 c3w).1.v 15 = (if c3w.v 2 < c3w.v 1 then 1 else 0)
    ∧ (op_0x8xy5 1 2 c3w).2 = ProgramCounterInstruction.NEXT :=
  C3_sub_borrow_semantics c3w 1 2 (by decide)

/-- C4 counterexample: for x = 0xF the claim fails.  Opcode 7F01 on the
reset state (V15 = 0) changes VF from 0 to 1, because VF *is* the
destination register. -/
theorem C4_cex_vf_is_destination :
    Chip8.default.v 15 = 0 ∧ (op_0x7xnn 15 1 Chip8.default).1.v 15 = 1 := by
  decide

/-- C4 (amended): for every destination register x ≠ 0xF, opcode 7xnn sets
Vx to (Vx + nn) mod 256 and leaves VF unchanged even when the addition
wraps, with PC transition Next; 8xy4, by contrast, always ends with VF
equal to the carry of Vx + Vy.  (When x = 0xF the 7xnn write targets VF
itself.) -/
theorem C4_add_no_carry_semantics (s : Chip8) (x y nn : Nat) (hx : x ≠ 15) :
    (op_0x7xnn x nn s).1.v x = (nn + s.v x) % 256
    ∧ (op_0x7xnn x nn s).1.v 15 = s.v 15
    ∧ (op_0x7xnn x nn s).2 = ProgramCounterInstruction.NEXT
    ∧ (op_0x8xy4 x y s).1.v 15 = (if 0xFF < s.v x + s.v y then 1 else 0) := by
  have h15 : (15 : Nat) ≠ x := fun hc => hx hc.symm
  exact ⟨by simp [op_0x7xnn, upd], by simp [op_0x7xnn, upd, h15], rfl,
    by simp [op_0x8xy4, upd]⟩

/-- C4 witness: the spec's wraparound example V1 = 0xFF, nn = 0x01 (and
V2 = 0x01 for the 8xy4 contrast). -/
theorem C4_add_no_carry_semantics_witness :
    (op_0x7xnn 1 1 c4w).1.v 1 = (1 + c4w.v 1) % 256
    ∧ (op_0x7xnn 1 1 c4w).1.v 15 = c4w.v 15
    ∧ (op_0x7xnn 1 1 c4w).2 = ProgramCounterInstruction.NEXT
    ∧ (op_0x8xy4 1 2 c4w).1.v 15 = (if 0xFF < c4w.v 1 + c4w.v 2 then 1 else 0) :=
  C4_add_no_carry_semantics c4w 1 2 1 (by decide)

/-- C5: the source never checks the stack depth.  Executing 2nnn on a
machine whose stack already holds 16 return addresses pushes a 17th entry
and jumps — there is no StackOverflow error anywhere in the interpreter
(the handler's type is total), contradicting the claim, the spec (§7) and
the source's own "16 levels of stack" comment. -/
theorem C5_call_pushes_seventeenth_entry :
    c5s.stack.length = 16
    ∧ (op_0x2nnn 0x300 c5s).1.stack.length = 17
    ∧ (op_0x2nnn 0x300 c5s).2 = ProgramCounterInstruction.GOTO 0x300 := by
  decide

/-- C6: opcode 0xD012 names a 2-row sprite (n = 2), but the dispatcher in
`emulate_cycle` passes nn = 0x12 = 18 as the height.  With I = 0x300 and a
sprite byte only at memory[0x302] (row 2, outside an 8×2 sprite), the
cycle sets the framebuffer pixel at row 2, column 0 (index 128) — drawing
a row the claimed 8×n bitmap does not contain.  (The blit itself is
modelled from the spec, `Chip8::draw` being `todo!()` in the source.) -/
theorem C6_dxyn_height_is_nn_not_n :
    decode_n 0xD012 = 2
    ∧ decode_nn 0xD012 = 18
    ∧ (stepWithOpcode 0 0 0xD012 c6s).map
        (fun t => (t.gfx (2 * 64), t.v 15, t.i, t.pc, t.draw_flag)) =
      .ok (1, 0, 0x300, 0x202, true) := by
  refine ⟨rfl, rfl, rfl⟩

/-- C7: executing opcode 0xBFFF with V0 = 0xFF sets the program counter to
0xFF + 0xFFF = 0x10FE, which exceeds 0xFFF — the jump target of Bnnn is
not confined to the 12-bit address space. -/
theorem C7_bnnn_exceeds_address_space :
    stepWithOpcode 0 0 0xBFFF c7s = .ok c7t
    ∧ c7t.pc = 0x10FE
    ∧ 0xFFF < c7t.pc := by
  refine ⟨rfl, rfl, by decide⟩

/-- C8: executing 00EE with an empty call stack raises the fatal
StackUnderflow error, and the state carried at the abort point differs
from the pre-instruction state in no field but the fetched-opcode latch:
registers, memory, PC, I, both timers, framebuffer, stack and keypad are
all untouched. -/
theorem C8_underflow_no_mutation (s : Chip8) (rnd keyp : Nat)
    (h : s.stack = []) :
    stepWithOpcode rnd keyp 0x00EE s =
      .error (EmuError.stackUnderflow, { s with opcode := 0x00EE })
    ∧ ({ s with opcode := 0x00EE }).v = s.v
    ∧ ({ s with opcode := 0x00EE }).memory = s.memory
    ∧ ({ s with opcode := 0x00EE }).pc = s.pc
    ∧ ({ s with opcode := 0x00EE }).i = s.i
    ∧ ({ s with opcode := 0x00EE }).delay_timer = s.delay_timer
    ∧ ({ s with opcode := 0x00EE }).sound_timer = s.sound_timer
    ∧ ({ s with opcode := 0x00EE }).gfx = s.gfx
    ∧ ({ s with opcode := 0x00EE }).stack = s.stack
    ∧ ({ s with opcode := 0x00EE }).key = s.key := by
  obtain ⟨op, mem, vv, ii, pc, gfx, dt, st, stk, key, df⟩ := s
  change stk = [] at h
  subst h
  exact ⟨rfl, rfl, rfl, rfl, rfl, rfl, rfl, rfl, rfl, rfl⟩

/-- C8 witness: the reset state has an empty stack. -/
theorem C8_underflow_no_mutation_witness :
    stepWithOpcode 0 0 0x00EE Chip8.default =
      .error (EmuError.stackUnderflow, { Chip8.default with opcode := 0x00EE })
    ∧ ({ Chip8.default with opcode := 0x00EE }).v = Chip8.default.v
    ∧ ({ Chip8.default with opcode := 0x00EE }).memory = Chip8.default.memory
    ∧ ({ Chip8.default with opcode := 0x00EE }).pc = Chip8.default.pc
    ∧ ({ Chip8.default with opcode := 0x00EE }).i = Chip8.default.i
    ∧ ({ Chip8.default with opcode := 0x00EE }).delay_timer = Chip8.default.delay_timer
    ∧ ({ Chip8.default with opcode := 0x00EE }).sound_timer = Chip8.default.sound_timer
    ∧ ({ Chip8.default with opcode := 0x00EE }).gfx = Chip8.default.gfx
    ∧ ({ Chip8.default with opcode := 0x00EE }).stack = Chip8.default.stack
    ∧ ({ Chip8.default with opcode := 0x00EE }).key = Chip8.default.key :=
  C8_underflow_no_mutation Chip8.default 0 0 rfl

/-- C9: over any run of m successfully executed cycles, each timer has
decreased by exactly 1 per cycle, floored at 0 (`Nat` subtraction): a
non-zero timer decrements by exactly 1 each cycle and a zero timer stays 0.
No opcode of this interpreter writes either timer (the Fx15/Fx18 family is
not implemented — any 0xFxxx word is a fatal decode error), so the "no
timer-setting opcode executed" side condition holds for every run. -/
theorem C9_timers_decrement_to_zero_floor (rnd keyp : Nat) :
    ∀ (m : Nat) (s t : Chip8), runCycles rnd keyp m s = .ok t →
      t.delay_timer = s.delay_timer - m
      ∧ t.sound_timer = s.sound_timer - m := by
  intro m
  induction m with
  | zero =>
    intro s t h
    injection h with h1
    subst h1
    simp
  | succ m ih =>
    intro s t h
    unfold runCycles at h
    split at h
    · rename_i s1 heq
      have h1 := emulate_cycle_timers rnd keyp s s1 heq
      have h2 := ih s1 t h
      omega
    · exact absurd h (by simp)

/-- C9 witness: two cycles from delay = 5, sound = 3 (each cycle fetches
word 0 from zeroed memory, the 00E0 arm) end with delay = 3, sound = 1. -/
theorem C9_timers_decrement_to_zero_floor_witness :
    c9t.delay_timer = c9s.delay_timer - 2
    ∧ c9t.sound_timer = c9s.sound_timer - 2 :=
  C9_timers_decrement_to_zero_floor 0 0 2 c9s c9t (by rfl)

/-- C10 counterexample: with V15 = 5 and V1 = 7, opcode 8F17 leaves
VF = 6, not the wrapped subtraction result (V1 − V15) mod 256 = 2 — in
8xy7 the flag write to VF lands *before* the subtraction reads Vx, so for
x = 0xF the subtrahend is the freshly written borrow flag, not the old VF. -/
theorem C10_cex_8xF7_subtrahend_is_flag :
    (op_0x8xy7 15 1 c10s).1.v 15 = 6
    ∧ (c10s.v 1 + 256 - c10s.v 15) % 256 = 2
    ∧ (op_0x8xy7 15 1 c10s).1.v 15 ≠ (c10s.v 1 + 256 - c10s.v 15) % 256 := by
  decide

/-- C10 (amended): when x = 0xF, opcode 8xF4 leaves VF equal to the carry
flag (the flag write is last); 8xF5 leaves VF equal to the wrapped
difference VF − Vy of the pre-instruction values (the result write is
last, discarding the borrow flag); and 8xF7 leaves VF equal to the wrapped
difference Vy − b where b is the borrow flag (1 if Vy > pre-VF else 0),
because the flag write replaces VF before 8xy7 reads its operands (for
y = 0xF the minuend is b as well, giving 0). -/
theorem C10_vf_write_order (s : Chip8) (y : Nat) :
    (op_0x8xy4 15 y s).1.v 15 = (if 0xFF < s.v 15 + s.v y then 1 else 0)
    ∧ (op_0x8xy5 15 y s).1.v 15 = (s.v 15 + 256 - s.v y) % 256
    ∧ (op_0x8xy7 15 y s).1.v 15 =
        ((if y = 15 then (if s.v 15 < s.v y then 1 else 0) else s.v y)
          + 256 - (if s.v 15 < s.v y then 1 else 0)) % 256 := by
  refine ⟨by simp [op_0x8xy4, upd], by simp [op_0x8xy5, upd], ?_⟩
  by_cases hy : y = 15 <;> simp [op_0x8xy7, upd, hy]

end Chip8Emu
